import Mathlib

/-!
Verification of the client-side authentication layer of
`juancadavidc/appointments-demo`.

The development embeds, as executable Lean definitions:

* the Zustand auth store's state machine (`auth-store.ts`): the `AuthState`
  union, the initial state, and every `set(...)` call reachable from the
  public actions (`initialize`, `signIn`, `signUp`, `signOut`,
  `enhancedSignOut`, `refreshSession`, the `onAuthStateChange` callback and
  `setBusinessContext`);
* the auth facade (`auth.ts`): response normalisation of every operation,
  the `isLikelyAuthenticated` fast path, and the 2000 ms timeout race inside
  `auth.signOut`;
* the login view's independent pre-check (`login/page.tsx`,
  `checkAuthentication`) with its 5000 ms timeout race;
* the route guard (`ProtectedRoute`) decision function.

External collaborators (the hosted auth gateway, the business-context
resolver, the enhanced-logout module) are modelled as explicit outcome
parameters, so every embedded function is a pure total function of its
inputs and the collaborators' outcomes.
-/

namespace AppointmentsDemo

/-- Type `AuthError` from `auth.ts`: `{ message: string; status?: number }`. -/
structure AuthError where
  message : String
  status : Option Nat
  deriving DecidableEq, Repr

/-- The user record carried inside a gateway session
(`session.user` with `id`, `email`, `user_metadata.name`,
`user_metadata.business_id`). `email` is optional in the gateway type;
the store substitutes `''` when absent. -/
structure SessionUser where
  id : String
  email : Option String
  name : Option String
  metadataBusinessId : Option String
  deriving DecidableEq, Repr

/-- Type `AuthUser` from `auth.ts`:
`{ id: string; email: string; name?: string; businessId?: string }`. -/
structure AuthUser where
  id : String
  email : String
  name : Option String
  businessId : Option String
  deriving DecidableEq, Repr

/-- The five tags of the `AuthState` discriminated union in `auth-store.ts`. -/
inductive AuthStatus
  | initializing
  | unauthenticated
  | authenticating
  | authenticated
  | signingOut
  deriving DecidableEq, Repr

/-- The store's observable snapshot: the five fields every `set(...)` call in
`auth-store.ts` writes (`status`, `user`, `businessId`, `error`,
`isLoading`). The discriminated union of the source is flattened into one
record; which field combinations actually occur is exactly what the
invariant claims are about. -/
structure AuthState where
  status : AuthStatus
  user : Option AuthUser
  businessId : Option String
  error : Option AuthError
  isLoading : Bool
  deriving DecidableEq, Repr

/-- The store's initial state (`auth-store.ts`): status `initializing`,
`user: null`, `businessId: null`, `error: null`, `isLoading: true`. -/
def initialState : AuthState :=
  { status := .initializing, user := none, businessId := none,
    error := none, isLoading := true }

/-- The `set({ status: 'unauthenticated', user: null, businessId: null,
error, isLoading: false })` write, used by `initialize` (marker absent,
session error, empty session, thrown error), `signIn`/`signUp` failure,
`signOut`/`enhancedSignOut` completion, `refreshSession` without a live
session, the logged-out change-event callback and `_setUnauthenticated`. -/
def unauthState (e : Option AuthError) : AuthState :=
  { status := .unauthenticated, user := none, businessId := none,
    error := e, isLoading := false }

/-- The `set({ status: 'authenticated', user, businessId, error: null,
isLoading: false })` write, used by `initialize`'s live-session branch, the
logged-in change-event callback, `refreshSession` and `_setAuthenticated`. -/
def authenticatedState (u : AuthUser) (bid : Option String) : AuthState :=
  { status := .authenticated, user := some u, businessId := bid,
    error := none, isLoading := false }

/-- The `set({ status: 'authenticating', user: null, businessId: null,
error: null, isLoading: true })` write at the top of `signIn`/`signUp`. -/
def authenticatingState : AuthState :=
  { status := .authenticating, user := none, businessId := none,
    error := none, isLoading := true }

/-- One store transition: each constructor is one `set(...)` call of
`auth-store.ts`, with the guard under which the source executes it.

* `setUnauthenticated` / `setAuthenticated` / `setAuthenticating`: the
  unconditional full-record writes listed at `unauthState`,
  `authenticatedState`, `authenticatingState`.
* `signOutStart`: `signOut`/`enhancedSignOut` begin with
  `if (currentState.status === 'authenticated')
     set({ ...currentState, status: 'signing-out', isLoading: true })`,
  keeping `user`, `businessId` and `error` from the current state.
* `setBizContext`: `setBusinessContext` on success, when
  `currentState.status === 'authenticated' && currentState.user`, writes
  `{ ...currentState, user: { ...user, businessId }, businessId }`. -/
inductive Step : AuthState → AuthState → Prop
  | setUnauthenticated (s : AuthState) (e : Option AuthError) :
      Step s (unauthState e)
  | setAuthenticated (s : AuthState) (u : AuthUser) (bid : Option String) :
      Step s (authenticatedState u bid)
  | setAuthenticating (s : AuthState) :
      Step s authenticatingState
  | signOutStart (s : AuthState) (h : s.status = .authenticated) :
      Step s { s with status := .signingOut, isLoading := true }
  | setBizContext (s : AuthState) (bid : String) (u : AuthUser)
      (h : s.status = .authenticated) (hu : s.user = some u) :
      Step s { s with user := some { u with businessId := some bid },
                      businessId := some bid }

/-- States of the store reachable from the initial state under any
interleaving of the public actions' writes. -/
inductive Reachable : AuthState → Prop
  | init : Reachable initialState
  | step {s s' : AuthState} : Reachable s → Step s s' → Reachable s'

/-- A concrete user for counterexample states. -/
def demoUser : AuthUser :=
  { id := "u1", email := "a@b.com", name := none, businessId := none }

/-- The state the store is in after `signOut` (or `enhancedSignOut`) has
executed its first `set` from an authenticated state: status
`signing-out` with the user still attached. -/
def signingOutState : AuthState :=
  { status := .signingOut, user := some demoUser, businessId := none,
    error := none, isLoading := true }

theorem signingOutState_reachable : Reachable signingOutState := by
  have h1 : Reachable (authenticatedState demoUser none) :=
    Reachable.step Reachable.init
      (Step.setAuthenticated initialState demoUser none)
  have h2 : Step (authenticatedState demoUser none) signingOutState := by
    have := Step.signOutStart (authenticatedState demoUser none) rfl
    simpa [authenticatedState, signingOutState] using this
  exact Reachable.step h1 h2

/-- C1, as stated by the spec: fails. The reachable `signing-out` state
keeps the user non-null while its status is not `authenticated`: the
`AuthState` union in `auth-store.ts` declares `signing-out` with
`user: AuthUser` (non-null), and `signOut` enters it via
`set({ ...currentState, status: 'signing-out', isLoading: true })` from an
authenticated state. -/
theorem C1_counterexample :
    Reachable signingOutState ∧ signingOutState.user ≠ none ∧
      signingOutState.status ≠ AuthStatus.authenticated := by
  refine ⟨signingOutState_reachable, ?_, ?_⟩ <;> simp [signingOutState]

/-- C1 (amended): in every reachable state, `user` is non-null iff the
status is `authenticated` or `signing-out`, and `isLoading` is true iff
the status is `initializing`, `authenticating` or `signing-out`. -/
theorem C1_invariant (s : AuthState) (h : Reachable s) :
    (s.user ≠ none ↔
      (s.status = .authenticated ∨ s.status = .signingOut)) ∧
    (s.isLoading = true ↔
      (s.status = .initializing ∨ s.status = .authenticating ∨
        s.status = .signingOut)) := by
  induction h with
  | init => simp [initialState]
  | step _ hstep ih =>
    cases hstep with
    | setUnauthenticated e => simp [unauthState]
    | setAuthenticated u bid => simp [authenticatedState]
    | setAuthenticating => simp [authenticatingState]
    | signOutStart h =>
        obtain ⟨ih1, _⟩ := ih
        refine ⟨?_, by simp⟩
        constructor
        · intro _
          exact Or.inr rfl
        · intro _
          exact ih1.mpr (Or.inl h)
    | setBizContext bid u h hu =>
        obtain ⟨ih1, ih2⟩ := ih
        constructor
        · simp [h]
        · simpa [h] using ih2

/-- Witness for `C1_invariant` at the initial state. -/
theorem C1_invariant_witness :
    (initialState.user ≠ none ↔
      (initialState.status = .authenticated ∨
        initialState.status = .signingOut)) ∧
    (initialState.isLoading = true ↔
      (initialState.status = .initializing ∨
        initialState.status = .authenticating ∨
        initialState.status = .signingOut)) :=
  C1_invariant initialState Reachable.init

/-! ## The store's `initialize` action (`auth-store.ts`) -/

/-- Outcome of the facade's `auth.getSession()` as seen by the store:
either an error result (`{ data: { session: null }, error }`) or a resolved
session slot (`{ data: { session }, error: null }`, where the session is
`null` or carries a user). The facade itself never rejects (it wraps the
gateway call in try/catch), which is also proved below at
`facadeGetSession`. -/
inductive GetSessionOutcome
  | err (e : AuthError)
  | ok (sessionUser : Option SessionUser)
  deriving DecidableEq, Repr

/-- The environment of one `initialize()` run: the result of the
synchronous `auth.isLikelyAuthenticated()` marker check, the
`auth.getSession()` outcome, the cached value the business-context
resolver's synchronous `getCurrentBusinessId()` would return, whether that
lookup throws (the store defends against it with an inner try/catch), and
whether `auth.onAuthStateChange(...)` throws while registering the
listener (an `Error` with the given message, caught by the outer
try/catch). -/
structure InitEnv where
  likelyAuthenticated : Bool
  sessionOutcome : GetSessionOutcome
  cachedBusinessId : Option String
  bizLookupThrows : Bool
  subscribeThrows : Option String
  deriving DecidableEq, Repr

/-- The `AuthUser` the store builds from a verified session:
`{ id, email: session.user.email || '', name: user_metadata?.name,
businessId: validatedBusinessId || undefined }`. -/
def mkAuthUser (su : SessionUser) (bid : Option String) : AuthUser :=
  { id := su.id, email := su.email.getD "", name := su.name,
    businessId := bid }

/-- What one `initialize()` run did: the sequence of `set(...)` writes it
issued, whether it registered the `onAuthStateChange` subscription, and
whether it issued the `auth.getSession()` network call. -/
structure InitResult where
  writes : List AuthState
  subscribed : Bool
  calledGetSession : Bool
  deriving DecidableEq, Repr

/-- Action `initialize` from `auth-store.ts`, branch by branch:

1. marker absent → one `unauthenticated` write with `error: null`, no
   `getSession` call, no subscription;
2. `getSession` error result → `unauthenticated` write carrying the error;
3. live session → an `authenticated` write (business id from the cached
   lookup, `null` if that lookup threw), then `onAuthStateChange` is
   registered; if registering throws, the outer catch adds an
   `unauthenticated` write carrying the thrown message;
4. empty session → `unauthenticated` write with `error: null`. -/
def initStore (env : InitEnv) : InitResult :=
  if !env.likelyAuthenticated then
    { writes := [unauthState none], subscribed := false,
      calledGetSession := false }
  else
    match env.sessionOutcome with
    | .err e =>
        { writes := [unauthState (some e)], subscribed := false,
          calledGetSession := true }
    | .ok none =>
        { writes := [unauthState none], subscribed := false,
          calledGetSession := true }
    | .ok (some su) =>
        let bid := if env.bizLookupThrows then none else env.cachedBusinessId
        let authWrite := authenticatedState (mkAuthUser su bid) bid
        match env.subscribeThrows with
        | none =>
            { writes := [authWrite], subscribed := true,
              calledGetSession := true }
        | some msg =>
            { writes := [authWrite, unauthState (some ⟨msg, none⟩)],
              subscribed := false, calledGetSession := true }

/-- The state the store is left in after a run: the last write (every run
issues at least one write, proved in `C6_init_loading`). -/
def finalWrite (r : InitResult) : Option AuthState :=
  r.writes.getLast?

/-- C9: if the local marker check is negative, `initialize` resolves to
`unauthenticated` with `user = null` and `error = null`, and never calls
`auth.getSession()`. -/
theorem C9_no_marker_no_network (env : InitEnv)
    (h : env.likelyAuthenticated = false) :
    initStore env =
      { writes := [unauthState none], subscribed := false,
        calledGetSession := false } ∧
    finalWrite (initStore env) = some
      { status := .unauthenticated, user := none, businessId := none,
        error := none, isLoading := false } := by
  constructor
  · simp [initStore, h]
  · simp [initStore, h, finalWrite, unauthState]

/-- Witness for `C9_no_marker_no_network`. -/
theorem C9_no_marker_no_network_witness :
    initStore
        { likelyAuthenticated := false, sessionOutcome := .ok none,
          cachedBusinessId := none, bizLookupThrows := false,
          subscribeThrows := none } =
      { writes := [unauthState none], subscribed := false,
        calledGetSession := false } ∧
    finalWrite (initStore
        { likelyAuthenticated := false, sessionOutcome := .ok none,
          cachedBusinessId := none, bizLookupThrows := false,
          subscribeThrows := none }) = some
      { status := .unauthenticated, user := none, businessId := none,
        error := none, isLoading := false } :=
  C9_no_marker_no_network _ rfl

/-- C6: every `initialize` run issues at least one write, and every write
it issues has `isLoading = false` — so `isLoading` drops from its initial
`true` to `false` at the run's first write and stays `false`: it becomes
false exactly once, on every branch. -/
theorem C6_init_loading (env : InitEnv) :
    (initStore env).writes ≠ [] ∧
      ∀ s ∈ (initStore env).writes, s.isLoading = false := by
  rcases env with ⟨lk, so, cb, bt, st⟩
  cases lk
  · simp [initStore, unauthState]
  · cases so with
    | err e => simp [initStore, unauthState]
    | ok su =>
      cases su with
      | none => simp [initStore, unauthState]
      | some u =>
        cases st with
        | none => simp [initStore, unauthState, authenticatedState]
        | some m => simp [initStore, unauthState, authenticatedState]

/-- C3, as stated by the spec: fails. On the marker-absent branch,
`initialize` settles (issues its final write) without ever registering the
`onAuthStateChange` subscription: in `auth-store.ts` the
`auth.onAuthStateChange(...)` call sits inside the
`if (sessionData.session?.user)` block, so only the live-session branch
subscribes. -/
theorem C3_counterexample :
    (initStore
        { likelyAuthenticated := false, sessionOutcome := .ok none,
          cachedBusinessId := none, bizLookupThrows := false,
          subscribeThrows := none }).subscribed = false ∧
    (initStore
        { likelyAuthenticated := false, sessionOutcome := .ok none,
          cachedBusinessId := none, bizLookupThrows := false,
          subscribeThrows := none }).writes ≠ [] := by
  constructor <;> simp [initStore]

/-- C3 (amended): `initialize` registers the change-event subscription
exactly on the live-session branch — the marker check passed, the session
check returned a live session, and registration itself did not throw. On
the marker-absent, session-error, empty-session and thrown branches it
settles without subscribing. -/
theorem C3_subscription_iff (env : InitEnv) :
    (initStore env).subscribed = true ↔
      (env.likelyAuthenticated = true ∧ env.subscribeThrows = none ∧
        ∃ su, env.sessionOutcome = .ok (some su)) := by
  rcases env with ⟨lk, so, cb, bt, st⟩
  cases lk
  · simp [initStore]
  · cases so with
    | err e => simp [initStore]
    | ok su =>
      cases su with
      | none => simp [initStore]
      | some u =>
        cases st with
        | none => simp [initStore]
        | some m => simp [initStore]

/-! ## `refreshSession` (`auth-store.ts`) -/

/-- Environment of a `refreshSession()` run: the `auth.getSession()`
outcome and the resolver's cached business id. -/
structure RefreshEnv where
  sessionOutcome : GetSessionOutcome
  cachedBusinessId : Option String
  deriving DecidableEq, Repr

/-- What a `refreshSession()` run did: its `set(...)` writes and whether it
called `businessContext.clearBusinessContext()`. -/
structure RefreshResult where
  writes : List AuthState
  clearedBusinessContext : Bool
  deriving DecidableEq, Repr

/-- Action `refreshSession` from `auth-store.ts`. It destructures only `data`
from `await auth.getSession()` — the error field is ignored, and the
facade returns `data: { session: null }` on error — so both the error
result and the empty session land in the `else` branch: an
`unauthenticated` write with `error: null` and a business-context clear.
A live session yields an `authenticated` write with the cached business
id. The surrounding `catch` is unreachable here: the facade's
`getSession` never rejects, and the resolver's `clearBusinessContext` is
contractually a non-failing clear. -/
def refreshSession (env : RefreshEnv) : RefreshResult :=
  match env.sessionOutcome with
  | .ok (some su) =>
      { writes := [authenticatedState (mkAuthUser su env.cachedBusinessId)
          env.cachedBusinessId],
        clearedBusinessContext := false }
  | .ok none =>
      { writes := [unauthState none], clearedBusinessContext := true }
  | .err _ =>
      { writes := [unauthState none], clearedBusinessContext := true }

/-! ## Timeout racing (C4, C5)

The wall-clock duration of the raced network call is made an explicit
parameter. A `Promise.race([op, timer(bound)])` where the timer rejects
after `bound` milliseconds is embedded as: the timer's rejection wins
whenever the call takes strictly longer than the bound ("exceeds" the
bound), otherwise the call's own settlement wins. -/

/-- Variant of `initStore` with the duration of the `auth.getSession()` call made
explicit. `auth-store.ts` awaits the call directly —
`const { data: sessionData, error } = await auth.getSession()` — with no
`Promise.race` and no timer, so the run's outcome does not depend on how
long the call takes. -/
def initStoreTimed (_sessionTimeMs : Nat) (env : InitEnv) : InitResult :=
  initStore env

/-- Variant of `refreshSession` with the duration of the `auth.getSession()` call
made explicit; like `initStore`, the source awaits it directly with no
race. -/
def refreshTimed (_sessionTimeMs : Nat) (env : RefreshEnv) : RefreshResult :=
  refreshSession env

/-- The login view's timer bound: `setTimeout(..., 5000)` in
`checkAuthentication` (`login/page.tsx`). -/
def loginTimeoutMs : Nat := 5000

/-- The facade sign-out timer bound: `setTimeout(..., 2000)` in
`auth.signOut` (`auth.ts`). -/
def signOutTimeoutMs : Nat := 2000

/-- How the login view's pre-check settles. `formAfterTimeout` is the
branch where the race rejected with the distinct
`Error('Session verification timeout')` and the catch falls through to
showing the form; `form` is every other form-showing path. -/
inductive LoginCheckResult
  | redirectTo (path : String)
  | formAfterTimeout
  | form
  deriving DecidableEq, Repr

/-- Environment of one `checkAuthentication()` run in `login/page.tsx`:
the marker check, the `auth.getSession()` outcome and its duration, and
the `returnUrl` query parameter. -/
structure LoginEnv where
  likelyAuthenticated : Bool
  sessionOutcome : GetSessionOutcome
  sessionTimeMs : Nat
  returnUrl : Option String
  deriving DecidableEq, Repr

/-- Function `checkAuthentication` from `login/page.tsx` (the run that is neither
cancelled nor preceded by a redirect): marker absent → show the form with
no network call; otherwise race `auth.getSession()` against the 5000 ms
timer. Timeout → catch → form. Error result → form. Live session →
redirect to the decoded `returnUrl`, defaulting to `/dashboard`. Empty
session → form. -/
def checkAuthentication (env : LoginEnv) : LoginCheckResult :=
  if !env.likelyAuthenticated then .form
  else if loginTimeoutMs < env.sessionTimeMs then .formAfterTimeout
  else
    match env.sessionOutcome with
    | .err _ => .form
    | .ok (some _) => .redirectTo (env.returnUrl.getD "/dashboard")
    | .ok none => .form

/-- An outcome of a raw gateway call: a resolved value, a resolved error
result, or a rejection (an `Error` whose message is `msg`). Every facade
operation's `catch` branch exists because the gateway client can reject. -/
inductive GwOutcome (α : Type)
  | ok (a : α)
  | err (e : AuthError)
  | thrown (msg : String)
  deriving DecidableEq, Repr

/-- Operation `auth.signOut` from `auth.ts`, acting on the resolver's cached
business id and returning the new cache plus the `{ error }` result:

1. `await clearBusinessContext()` — clears the cache (the resolver's
   contract: a non-failing clear, so the outer
   `catch`/`'Logout failed'` path is not reachable from the gateway
   call);
2. `Promise.race([supabase.auth.signOut(), timer(2000)])` — if the race
   rejects (the timer fired, or the gateway call itself rejected first),
   the inner catch returns `{ error: null }`;
3. otherwise the gateway's resolved `{ error }` is normalised:
   a gateway error result is passed through, success returns
   `{ error: null }`. -/
def facadeSignOut (_biz : Option String) (gwTimeMs : Nat)
    (gw : GwOutcome Unit) : Option String × Option AuthError :=
  let bizCleared : Option String := none
  if signOutTimeoutMs < gwTimeMs then
    (bizCleared, none)
  else
    match gw with
    | .thrown _ => (bizCleared, none)
    | .err e => (bizCleared, some e)
    | .ok _ => (bizCleared, none)

/-- C5, as stated by the spec: fails. Not every non-timeout remote failure
comes back as a non-null error: when the gateway sign-out call rejects
before the 2000 ms timer, the same inner catch that absorbs the timeout
absorbs the rejection, and the facade reports `{ error: null }`. -/
theorem C5_counterexample :
    facadeSignOut none 0 (.thrown "Network request failed") =
      (none, none) ∧ ¬ (0 > signOutTimeoutMs) := by
  constructor
  · rfl
  · decide

/-- C5 (amended): after the facade's local cleanup, a gateway sign-out
that exceeds the 2000 ms timeout is reported as overall success
(`{ error: null }`); so is a gateway rejection that beats the timer; a
gateway failure delivered as an error result is returned as that
non-null error. -/
theorem C5_signout_policy (biz : Option String) (t : Nat)
    (gw : GwOutcome Unit) :
    (signOutTimeoutMs < t → facadeSignOut biz t gw = (none, none)) ∧
    (∀ e, t ≤ signOutTimeoutMs → gw = .err e →
      facadeSignOut biz t gw = (none, some e)) ∧
    (∀ m, t ≤ signOutTimeoutMs → gw = .thrown m →
      facadeSignOut biz t gw = (none, none)) := by
  refine ⟨?_, ?_, ?_⟩
  · intro h
    cases gw <;> simp [facadeSignOut, h]
  · intro e h he
    subst he
    simp [facadeSignOut, Nat.not_lt.mpr h]
  · intro m h hm
    subst hm
    simp [facadeSignOut, Nat.not_lt.mpr h]

/-- Witness for `C5_signout_policy`: the timeout branch at 3000 ms and the
error-result branch at 0 ms. -/
theorem C5_signout_policy_witness :
    facadeSignOut none 3000 (.ok ()) = (none, none) ∧
    facadeSignOut none 0 (.err ⟨"boom", some 400⟩) =
      (none, some ⟨"boom", some 400⟩) :=
  ⟨(C5_signout_policy none 3000 (.ok ())).1 (by decide),
   (C5_signout_policy none 0 (.err ⟨"boom", some 400⟩)).2.1
     ⟨"boom", some 400⟩ (by decide) rfl⟩

/-! ## The store's `signOut` (C2) and `signIn`/`signUp` (C7) -/

/-- The store's world: its auth snapshot plus the resolver's cached
business id (the value `getCurrentBusinessId()` would return). -/
structure World where
  authSnapshot : AuthState
  biz : Option String
  deriving DecidableEq, Repr

/-- Action `signOut` from `auth-store.ts`, returning the final world and whether
the action threw to its caller:

1. if the current status is `authenticated`,
   `set({ ...currentState, status: 'signing-out', isLoading: true })`;
2. `await clearBusinessContext()` (non-failing clear per the resolver's
   contract);
3. `await auth.signOut()` (the facade, embedded above — it never
   rejects);
4. a facade error result → `set` unauthenticated carrying the error, then
   `throw new Error(...)`, which the surrounding catch intercepts: it
   clears the business context again, issues a final
   `set` unauthenticated with `error: null`, and rethrows;
5. facade success → `set` unauthenticated with `error: null`. -/
def storeSignOut (w : World) (gwTimeMs : Nat) (gw : GwOutcome Unit) :
    World × Bool :=
  let _a1 := if w.authSnapshot.status = .authenticated
    then { w.authSnapshot with status := .signingOut, isLoading := true }
    else w.authSnapshot
  let biz1 : Option String := none
  let res := facadeSignOut biz1 gwTimeMs gw
  match res.2 with
  | some _ =>
      ({ authSnapshot := unauthState none, biz := none }, true)
  | none =>
      ({ authSnapshot := unauthState none, biz := res.1 }, false)

/-- C2: however `signOut()` resolves — returning normally or rethrowing a
gateway failure — the store ends `unauthenticated` with `user = null` and
the cached business id cleared. -/
theorem C2_signout_final_state (w : World) (t : Nat) (gw : GwOutcome Unit) :
    (storeSignOut w t gw).1.authSnapshot.status = .unauthenticated ∧
    (storeSignOut w t gw).1.authSnapshot.user = none ∧
    (storeSignOut w t gw).1.biz = none := by
  unfold storeSignOut facadeSignOut
  rcases gw with a | e | m <;>
    by_cases h : signOutTimeoutMs < t <;>
      simp [h, unauthState]

/-- The result of a store `signIn`/`signUp` run: its `set(...)` writes and
the `{ error }` value returned to the caller. -/
structure ActionResult where
  writes : List AuthState
  returned : Option AuthError
  deriving DecidableEq, Repr

/-- Action `signIn` from `auth-store.ts`: first
`set({ status: 'authenticating', ... })`; a facade error result is both
written to state (`set` unauthenticated carrying it) and returned; facade
success returns `{ error: null }` and leaves settling to the change-event
listener. The facade never rejects, so the catch branch (same dual
reporting with a wrapped message) is not exercised. -/
def storeSignIn (facadeResult : Option AuthError) : ActionResult :=
  match facadeResult with
  | some e =>
      { writes := [authenticatingState, unauthState (some e)],
        returned := some e }
  | none =>
      { writes := [authenticatingState], returned := none }

/-- Action `signUp` from `auth-store.ts`: textually symmetric to `signIn`. -/
def storeSignUp (facadeResult : Option AuthError) : ActionResult :=
  match facadeResult with
  | some e =>
      { writes := [authenticatingState, unauthState (some e)],
        returned := some e }
  | none =>
      { writes := [authenticatingState], returned := none }

/-- C7: on a gateway failure, `signIn` (and `signUp`) ends
`unauthenticated` with the returned error stored in state, and the same
error is returned to the caller. -/
theorem C7_dual_reporting (e : AuthError) :
    ((storeSignIn (some e)).writes.getLast? =
        some (unauthState (some e)) ∧
      (storeSignIn (some e)).returned = some e) ∧
    ((storeSignUp (some e)).writes.getLast? =
        some (unauthState (some e)) ∧
      (storeSignUp (some e)).returned = some e) := by
  simp [storeSignIn, storeSignUp]

/-! ## C4: which session checks are raced against a timer -/

/-- A concrete live-session user for counterexample runs. -/
def demoSessionUser : SessionUser :=
  { id := "u1", email := some "a@b.com", name := none,
    metadataBusinessId := none }

/-- A marker-present environment whose session check returns a live
session. -/
def liveInitEnv : InitEnv :=
  { likelyAuthenticated := true,
    sessionOutcome := .ok (some demoSessionUser),
    cachedBusinessId := none, bizLookupThrows := false,
    subscribeThrows := none }

/-- C4, as stated by the spec: fails. The store's `initialize()` (and
`refreshSession()`) awaits `auth.getSession()` with no race and no timer:
a session check taking 100000 ms produces exactly the run a 0 ms check
produces — the run still settles `authenticated` — instead of rejecting
with a distinct timeout error. Only the login view's pre-check (5000 ms)
and the facade's sign-out call (2000 ms) are raced. -/
theorem C4_counterexample :
    initStoreTimed 100000 liveInitEnv = initStoreTimed 0 liveInitEnv ∧
    (finalWrite (initStoreTimed 100000 liveInitEnv)).map AuthState.status =
      some .authenticated ∧
    refreshTimed 100000 ⟨.ok (some demoSessionUser), none⟩ =
      refreshTimed 0 ⟨.ok (some demoSessionUser), none⟩ := by
  refine ⟨rfl, rfl, rfl⟩

/-- C4 (amended): the store's `initialize()` and `refreshSession()` are
not bounded by any timeout — their outcome is independent of how long the
session check takes; the login view's pre-check is bounded by the 5000 ms
race (any slower session check settles the run through the distinct
timeout rejection), and the facade's sign-out gateway call by the 2000 ms
race. -/
theorem C4_timeout_bounds :
    (∀ (t : Nat) (env : InitEnv), initStoreTimed t env = initStore env) ∧
    (∀ (t : Nat) (env : RefreshEnv),
      refreshTimed t env = refreshSession env) ∧
    (∀ env : LoginEnv, env.likelyAuthenticated = true →
      loginTimeoutMs < env.sessionTimeMs →
      checkAuthentication env = .formAfterTimeout) ∧
    (∀ (biz : Option String) (t : Nat) (gw : GwOutcome Unit),
      signOutTimeoutMs < t → facadeSignOut biz t gw = (none, none)) := by
  refine ⟨fun _ _ => rfl, fun _ _ => rfl, ?_, ?_⟩
  · intro env hm ht
    simp [checkAuthentication, hm, ht]
  · intro biz t gw ht
    cases gw <;> simp [facadeSignOut, ht]

/-- Witness for `C4_timeout_bounds`: a 6000 ms login-view session check
times out; a 2001 ms gateway sign-out is absorbed as success. -/
theorem C4_timeout_bounds_witness :
    checkAuthentication
        { likelyAuthenticated := true, sessionOutcome := .ok none,
          sessionTimeMs := 6000, returnUrl := none } =
      .formAfterTimeout ∧
    facadeSignOut none 2001 (.ok ()) = (none, none) :=
  ⟨C4_timeout_bounds.2.2.1
      { likelyAuthenticated := true, sessionOutcome := .ok none,
        sessionTimeMs := 6000, returnUrl := none } rfl (by decide),
   C4_timeout_bounds.2.2.2 none 2001 (.ok ()) (by decide)⟩

/-! ## The route guard (`ProtectedRoute`, C8) -/

/-- What the guard's effect does on a settled render pass. `redirectLogin
rt pn` stands for `router.push(rt + '?returnUrl=' + encodeURIComponent(pn))`;
`redirectRegister r` stands for
`router.push('/register/business?reason=' + r)`. -/
inductive GuardAction
  | wait
  | redirectLogin (redirectTo : String) (returnUrl : String)
  | redirectRegister (reason : String)
  | render
  deriving DecidableEq, Repr

/-- The business-context triple `ProtectedRoute` reads from
`useBusinessContext`: `isLoading`, `businessId`, `error`. -/
structure BizState where
  isLoading : Bool
  businessId : Option String
  error : Option String
  deriving DecidableEq, Repr

/-- How the resolver's `getCurrentBusinessIdAsync` settles: a resolved
value (possibly `null`) or a rejection with an `Error` whose message is
`msg` (`'TIMEOUT'` for the resolver's distinguishable timeout kind). -/
inductive ResolverOutcome
  | value (businessId : Option String)
  | thrown (msg : String)
  deriving DecidableEq, Repr

/-- The settled state of `useBusinessContext` after its load effect ran:
a resolved value is stored with no error; a rejection stores the message
as the error (`'TIMEOUT'` is kept verbatim by the dedicated branch, any
other message by the generic branch) and leaves `businessId` null. -/
def settleBusinessContext (outcome : ResolverOutcome) : BizState :=
  match outcome with
  | .value v => { isLoading := false, businessId := v, error := none }
  | .thrown m => { isLoading := false, businessId := none, error := some m }

/-- The decision of `ProtectedRoute`'s effect (the context-based variant):
wait while auth or required business context loads; no user → redirect to
login carrying the current path; with required business context, a
`'TIMEOUT'` error → reason `timeout`, any other error → reason `error`,
no business id → reason `no-business`; otherwise render. -/
def protectedRoute (user : Option AuthUser) (authLoading : Bool)
    (requireBusinessContext : Bool) (redirectTo pathname : String)
    (biz : BizState) : GuardAction :=
  if authLoading || (requireBusinessContext && biz.isLoading) then
    .wait
  else if user.isNone then
    .redirectLogin redirectTo pathname
  else if requireBusinessContext then
    match biz.error with
    | some m =>
        if m = "TIMEOUT" then .redirectRegister "timeout"
        else .redirectRegister "error"
    | none =>
        if biz.businessId.isNone then .redirectRegister "no-business"
        else .render
  else
    .render

/-- C8: for an authenticated user whose required business-context
resolution fails, the guard redirects to the tenant-registration path
with reason `timeout` for the distinguishable TIMEOUT kind, `error` for
any other failure, and `no-business` when resolution succeeds with no
tenant; an unauthenticated user is redirected to the login path with the
requested path as return URL. -/
theorem C8_guard_reasons (u : AuthUser) (rt pn : String) :
    protectedRoute (some u) false true rt pn
        (settleBusinessContext (.thrown "TIMEOUT")) =
      .redirectRegister "timeout" ∧
    (∀ m, m ≠ "TIMEOUT" →
      protectedRoute (some u) false true rt pn
          (settleBusinessContext (.thrown m)) =
        .redirectRegister "error") ∧
    protectedRoute (some u) false true rt pn
        (settleBusinessContext (.value none)) =
      .redirectRegister "no-business" ∧
    (∀ req, protectedRoute none false req rt pn
        (settleBusinessContext (.value none)) =
      .redirectLogin rt pn) := by
  refine ⟨rfl, ?_, rfl, ?_⟩
  · intro m hm
    simp [protectedRoute, settleBusinessContext, hm]
  · intro req
    cases req <;> rfl

/-- Witness for `C8_guard_reasons` at a concrete user, path and failure
message. -/
theorem C8_guard_reasons_witness :
    protectedRoute (some demoUser) false true "/login" "/dashboard"
        (settleBusinessContext (.thrown "TIMEOUT")) =
      .redirectRegister "timeout" ∧
    protectedRoute (some demoUser) false true "/login" "/dashboard"
        (settleBusinessContext (.thrown "db down")) =
      .redirectRegister "error" :=
  ⟨(C8_guard_reasons demoUser "/login" "/dashboard").1,
   (C8_guard_reasons demoUser "/login" "/dashboard").2.1 "db down"
     (by decide)⟩

/-! ## The auth facade's result normalisation (`auth.ts`, C10)

Each facade operation wraps its gateway call in try/catch and returns a
uniform `{ data, error }` record: a resolved error result is passed
through as `{ message, status }`, a rejection is caught and mapped to
`{ message: err.message, status: 500 }` with empty data. The embedding of
each operation is a total function of the gateway outcome — the facade
never rejects. (`auth.signOut`, embedded above as `facadeSignOut`, is the
one operation that deviates: its inner race catch swallows rejections.)
-/

/-- The facade's uniform result shape,
`AuthResult<T> = { data: T; error: AuthError | null }`. -/
structure AuthResult (α : Type) where
  data : α
  error : Option AuthError
  deriving DecidableEq, Repr

/-- A gateway session, reduced to the fields the repository reads: the
session's user record. -/
structure GwSession where
  user : SessionUser
  deriving DecidableEq, Repr

/-- The `{ user, session }` data payload of `signUp`, `signIn` and
`verifyOtp`. -/
structure UserSessionData where
  user : Option SessionUser
  session : Option GwSession
  deriving DecidableEq, Repr

/-- The `{ user: null, session: null }` payload returned on every failure
branch of `signUp`/`signIn`/`verifyEmail`. -/
def emptyUserSession : UserSessionData := ⟨none, none⟩

/-- Operation `auth.signUp`: gateway error result → passed through with empty data;
rejection → caught, `{ message: err.message, status: 500 }`. -/
def facadeSignUp (gw : GwOutcome UserSessionData) :
    AuthResult UserSessionData :=
  match gw with
  | .ok d => ⟨d, none⟩
  | .err e => ⟨emptyUserSession, some e⟩
  | .thrown m => ⟨emptyUserSession, some ⟨m, some 500⟩⟩

/-- Operation `auth.signIn`: same normalisation as `signUp`. (On success the source
additionally propagates `user_metadata.business_id` to the resolver; that
side effect does not alter the returned result.) -/
def facadeSignIn (gw : GwOutcome UserSessionData) :
    AuthResult UserSessionData :=
  match gw with
  | .ok d => ⟨d, none⟩
  | .err e => ⟨emptyUserSession, some e⟩
  | .thrown m => ⟨emptyUserSession, some ⟨m, some 500⟩⟩

/-- Operation `auth.getSession`: data is `{ session }`, `null` on both failure
branches. -/
def facadeGetSession (gw : GwOutcome (Option GwSession)) :
    AuthResult (Option GwSession) :=
  match gw with
  | .ok s => ⟨s, none⟩
  | .err e => ⟨none, some e⟩
  | .thrown m => ⟨none, some ⟨m, some 500⟩⟩

/-- Operation `auth.getUser`: data is `{ user }`, `null` on both failure branches. -/
def facadeGetUser (gw : GwOutcome (Option SessionUser)) :
    AuthResult (Option SessionUser) :=
  match gw with
  | .ok u => ⟨u, none⟩
  | .err e => ⟨none, some e⟩
  | .thrown m => ⟨none, some ⟨m, some 500⟩⟩

/-- Operation `auth.resetPassword`: the data payload (an optional message) is passed
through on success and `null` on both failure branches. -/
def facadeResetPassword (gw : GwOutcome (Option String)) :
    AuthResult (Option String) :=
  match gw with
  | .ok d => ⟨d, none⟩
  | .err e => ⟨none, some e⟩
  | .thrown m => ⟨none, some ⟨m, some 500⟩⟩

/-- Operation `auth.updatePassword`: data is the updated user, `null` on both
failure branches. -/
def facadeUpdatePassword (gw : GwOutcome (Option SessionUser)) :
    AuthResult (Option SessionUser) :=
  match gw with
  | .ok u => ⟨u, none⟩
  | .err e => ⟨none, some e⟩
  | .thrown m => ⟨none, some ⟨m, some 500⟩⟩

/-- Operation `auth.verifyEmail` (`verifyOtp`): same shape as `signUp`. -/
def facadeVerifyEmail (gw : GwOutcome UserSessionData) :
    AuthResult UserSessionData :=
  match gw with
  | .ok d => ⟨d, none⟩
  | .err e => ⟨emptyUserSession, some e⟩
  | .thrown m => ⟨emptyUserSession, some ⟨m, some 500⟩⟩

/-- Operation `auth.resendVerificationEmail` (`resend`): the data payload is the
optional message id, `null` on both failure branches. -/
def facadeResendVerificationEmail (gw : GwOutcome (Option String)) :
    AuthResult (Option String) :=
  match gw with
  | .ok d => ⟨d, none⟩
  | .err e => ⟨none, some e⟩
  | .thrown m => ⟨none, some ⟨m, some 500⟩⟩

/-- The result of the enhanced-logout module's `enhancedLogout(config)`:
a resolved `{ success, error?, cleanupResults }`, or a rejection. The
module itself is dynamically imported and is outside the embedded
sources. -/
inductive EnhancedLogoutOutcome
  | result (success : Bool) (error : Option AuthError)
      (cleanupResults : List (String × Bool))
  | thrown (msg : String)
  deriving DecidableEq, Repr

/-- Return shape of `auth.enhancedSignOut`:
`{ error, cleanupResults? }`. -/
structure EnhancedSignOutRet where
  error : Option AuthError
  cleanupResults : Option (List (String × Bool))
  deriving DecidableEq, Repr

/-- Operation `auth.enhancedSignOut`: a successful `enhancedLogout` result returns
`error: null`; an unsuccessful one returns its error, defaulting to
`{ message: 'Enhanced logout failed', status: 500 }`; a rejection is
caught as `{ message: err.message, status: 500 }` with no
`cleanupResults`. -/
def facadeEnhancedSignOut (outcome : EnhancedLogoutOutcome) :
    EnhancedSignOutRet :=
  match outcome with
  | .result true _ cleanup => ⟨none, some cleanup⟩
  | .result false e cleanup =>
      ⟨some (e.getD ⟨"Enhanced logout failed", some 500⟩), some cleanup⟩
  | .thrown m => ⟨some ⟨m, some 500⟩, none⟩

/-- C10, as stated by the spec: fails for `signOut`. When the gateway
sign-out call rejects with message `boom`, the facade's inner race catch
returns `{ error: null }` instead of an error carrying `boom` with
status 500. -/
theorem C10_counterexample :
    (facadeSignOut none 0 (.thrown "boom")).2 = none ∧
    (facadeSignOut none 0 (.thrown "boom")).2 ≠
      some ⟨"boom", some 500⟩ := by
  constructor
  · rfl
  · simp [facadeSignOut, signOutTimeoutMs]

/-- C10 (amended): every facade operation is total at the call boundary
(each is a function of the gateway outcome — it never rejects), and every
operation except `signOut` maps a gateway rejection to a result with the
exception's message and status 500 and empty data; `signOut` instead
either reports no error or passes a gateway error result through —
a rejection of its raced gateway call (timeout included) yields
`error: null`. -/
theorem C10_total_boundary (m : String) :
    facadeSignUp (.thrown m) = ⟨emptyUserSession, some ⟨m, some 500⟩⟩ ∧
    facadeSignIn (.thrown m) = ⟨emptyUserSession, some ⟨m, some 500⟩⟩ ∧
    facadeGetSession (.thrown m) = ⟨none, some ⟨m, some 500⟩⟩ ∧
    facadeGetUser (.thrown m) = ⟨none, some ⟨m, some 500⟩⟩ ∧
    facadeResetPassword (.thrown m) = ⟨none, some ⟨m, some 500⟩⟩ ∧
    facadeUpdatePassword (.thrown m) = ⟨none, some ⟨m, some 500⟩⟩ ∧
    facadeVerifyEmail (.thrown m) = ⟨emptyUserSession, some ⟨m, some 500⟩⟩ ∧
    facadeResendVerificationEmail (.thrown m) =
      ⟨none, some ⟨m, some 500⟩⟩ ∧
    facadeEnhancedSignOut (.thrown m) = ⟨some ⟨m, some 500⟩, none⟩ ∧
    (∀ (biz : Option String) (t : Nat) (gw : GwOutcome Unit),
      (facadeSignOut biz t gw).2 = none ∨
        ∃ e, gw = .err e ∧ (facadeSignOut biz t gw).2 = some e) := by
  refine ⟨rfl, rfl, rfl, rfl, rfl, rfl, rfl, rfl, rfl, ?_⟩
  intro biz t gw
  by_cases h : signOutTimeoutMs < t
  · left
    cases gw <;> simp [facadeSignOut, h]
  · cases gw with
    | ok a => left; simp [facadeSignOut, h]
    | err e => right; exact ⟨e, rfl, by simp [facadeSignOut, h]⟩
    | thrown msg => left; simp [facadeSignOut, h]

end AppointmentsDemo
